import Mathlib

/-!
Verification of the dependency-injection bootstrap layer (package `di`,
file `di/dependency.go`) and the interactor cleanup hook (package
`usecase`, file `usecase/interactor.go`) of the evans gRPC client.

The Go code is shallowly embedded: package-level variables become an
explicit state record (`DIState`, `FullState`), `sync.Once` guards become
boolean `...OnceDone` flags (sequential semantics: `sync.Once` serializes
the body and establishes a happens-before edge, so any execution is
observationally a sequence of calls in synchronization order), Go `error`
results become `Option GoErr` (with `none` for Go's nil error), and a
method call on a nil interface value becomes an explicit panic outcome
(`Exec` = `Except PanicE`).

External collaborators that the `di` package calls (the gRPC adapter,
protobuf parsing, the environment, inputters, presenters, and the
third-party shell-words parser) are parameters gathered in a `World`
record; the spec scopes them out as "external collaborators" whose
constructors the core only sequences.
-/

/-- Go `error` values: a plain message (`errors.New`), a wrapped error
(`errors.Wrap` / `errors.Wrapf`), or a `go-multierror` aggregate. -/
inductive GoErr : Type where
  | mk (msg : String)
  | wrap (msg : String) (cause : GoErr)
  | agg (errs : List GoErr)

/-- A Go runtime panic reachable in this code: a method call through a
nil interface value. -/
inductive PanicE : Type where
  | nilPointerDereference

/-- Execution outcome of a code path that may panic: either a normal
result or a propagating runtime panic. -/
abbrev Exec (α : Type) : Type := Except PanicE α

/-- `context.Context`: opaque, never inspected by this layer. -/
abbrev Ctx : Type := Unit

/-- Opaque component handles produced by external constructors. -/
abbrev Desc : Type := Nat

/-- Opaque gRPC client handle (`entity.GRPCClient`). -/
abbrev Client : Type := Nat

/-- Opaque dynamic message builder handle (`port.DynamicBuilder`). -/
abbrev Builder : Type := Nat

/-- Opaque environment handle (`environment.Environment`). -/
abbrev Environment : Type := Nat

/-- Opaque service descriptor (`entity.Service`). -/
abbrev Service : Type := Nat

/-- Opaque message descriptor (`entity.Message`). -/
abbrev Message : Type := Nat

/-- Opaque JSON presenter handle (`presenter.JSONPresenter`). -/
abbrev Presenter : Type := Nat

/-- Opaque JSON file inputter handle (`inputter.JSONFile`). -/
abbrev JSONFileInputter : Type := Nat

/-- Opaque `io.Reader` handle. -/
abbrev Reader : Type := Nat

/-- `entity.Header`: one request header pair. -/
structure Header : Type where
  key : String
  val : String

/-- Modelled from the spec: the prompt input source component
(`inputter.NewPrompt`, repository code outside `src/`); per the spec it is
an opaque handle wrapping the prompt format and the environment handle it
is handed — possibly Go's nil environment. -/
structure PromptInputter : Type where
  format : String
  env : Option Environment

/-- The slice of `config.Config` read by `di/dependency.go`. -/
structure Config : Type where
  serverHost : String := ""
  serverPort : String := ""
  requestWeb : Bool := false
  serverReflection : Bool := false
  protoPath : List String := []
  protoFile : List String := []
  requestHeader : List (String × String) := []
  defaultPackage : String := ""
  defaultService : String := ""
  promptFormat : String := ""

/-- The external collaborators called by `di/dependency.go`, as functions:
the third-party shell-words parser (`ParseEnv=true`), `protobuf.ParseFile`,
the gRPC adapter constructors and methods, the environment constructors and
mutators, and the remaining component constructors. -/
structure World : Type where
  parseEnvWord : String → Except GoErr (List String)
  parseFile : List String → List String → Except GoErr Desc
  newClient : String → Bool → Except GoErr Client
  newWebClient : String → Bool → Option Builder → Client
  reflectionEnabled : Client → Bool
  listServices : Client → List Service × List Message × Option GoErr
  newFromServices : List Service → List Message → List Header → Environment
  newEnv : Desc → List Header → Environment
  usePackage : Environment → String → Option GoErr
  useService : Environment → String → Option GoErr
  closeClient : Ctx → Client → Option GoErr
  newDynamicBuilder : Builder
  newJSONPresenter : Presenter
  newJSONFile : Reader → JSONFileInputter

/-- The package-level variables of `di/dependency.go` (each Go global plus
its `sync.Once` done flag), together with ghost invocation counters — the
spec's §8 suggests verifying exactly-once execution "via invocation
counters"; the counters do not influence any behavior. -/
structure DIState : Type where
  env : Option Environment := none
  envOnceDone : Bool := false
  jsonCLIPresenter : Option Presenter := none
  jsonCLIPresenterOnceDone : Bool := false
  jsonFileInputter : Option JSONFileInputter := none
  jsonFileInputterOnceDone : Bool := false
  promptInputter : Option PromptInputter := none
  promptInputterOnceDone : Bool := false
  gRPCClient : Option Client := none
  gRPCClientOnceDone : Bool := false
  dynamicBuilder : Option Builder := none
  dynamicBuilderOnceDone : Bool := false
  newClientCalls : Nat := 0
  envBodyRuns : Nat := 0

/-- The zero value of every `di` package-level variable at process start. -/
def initialDIState : DIState := {}

/-- `gRPCClient.ReflectionEnabled()` on a possibly-nil interface value:
panics when nil. -/
def callReflectionEnabled (w : World) : Option Client → Exec Bool
  | none => .error .nilPointerDereference
  | some c => .ok (w.reflectionEnabled c)

/-- `gRPCClient.ListServices()` on a possibly-nil interface value. -/
def callListServices (w : World) : Option Client → Exec (List Service × List Message × Option GoErr)
  | none => .error .nilPointerDereference
  | some c => .ok (w.listServices c)

/-- `env.UsePackage(pkg)` on a possibly-nil interface value. -/
def callUsePackage (w : World) : Option Environment → String → Exec (Option GoErr)
  | none, _ => .error .nilPointerDereference
  | some e, pkg => .ok (w.usePackage e pkg)

/-- `env.UseService(svc)` on a possibly-nil interface value. -/
def callUseService (w : World) : Option Environment → String → Exec (Option GoErr)
  | none, _ => .error .nilPointerDereference
  | some e, svc => .ok (w.useService e svc)

/-- The local closure `parse` inside `resolveProtoPaths`: run the
shell-words parser on one raw entry; more than one token is the
ambiguous-path failure (`errors.New("failed to parse proto path")`), zero
tokens resolve to the empty string, one token is returned as is. -/
def parseOne (w : World) (p : String) : Except GoErr String :=
  match w.parseEnvWord p with
  | .error e => .error e
  | .ok res =>
    if res.length > 1 then .error (GoErr.mk "failed to parse proto path")
    else
      match res with
      | [] => .ok ""
      | r :: _ => .ok r

/-- The `for` loop of `resolveProtoPaths`: `encountered` is the key set of
the Go `map[string]bool` (a key is present iff it was set to true), and
`paths` the accumulated result slice. -/
def rppLoop (w : World) : List String → List String → List String → Except GoErr (List String)
  | [], _, paths => .ok paths
  | p :: ps, encountered, paths =>
    match parseOne w p with
    | .error e => .error e
    | .ok path =>
      if path ∈ encountered ∨ path = "" then
        rppLoop w ps encountered paths
      else
        rppLoop w ps (path :: encountered) (paths ++ [path])

/-- `resolveProtoPaths`: expand every configured proto path entry through
the shell-words parser and deduplicate. -/
def resolveProtoPaths (w : World) (cfg : Config) : Except GoErr (List String) :=
  rppLoop w cfg.protoPath [] []

/-- `resolveProtoFiles`: keep every non-empty configured proto file name. -/
def resolveProtoFiles (cfg : Config) : List String :=
  cfg.protoFile.foldl (fun files f => if f ≠ "" then files ++ [f] else files) []

/-- `initJSONCLIPresenter`: build the JSON presenter once; never fails. -/
def initJSONCLIPresenter (w : World) (s : DIState) : Option GoErr × DIState :=
  if s.jsonCLIPresenterOnceDone then (none, s)
  else
    (none, { s with jsonCLIPresenterOnceDone := true,
                    jsonCLIPresenter := some w.newJSONPresenter })

/-- `initJSONFileInputter`: build the JSON file inputter once from the
given reader; never fails. -/
def initJSONFileInputter (w : World) (inp : Reader) (s : DIState) : Option GoErr × DIState :=
  if s.jsonFileInputterOnceDone then (none, s)
  else
    (none, { s with jsonFileInputterOnceDone := true,
                    jsonFileInputter := some (w.newJSONFile inp) })

/-- `initDynamicBuilder`: build the dynamic builder once; never fails. -/
def initDynamicBuilder (w : World) (s : DIState) : Option GoErr × DIState :=
  if s.dynamicBuilderOnceDone then (none, s)
  else
    (none, { s with dynamicBuilderOnceDone := true,
                    dynamicBuilder := some w.newDynamicBuilder })

/-- `DynamicBuilder`: run `initDynamicBuilder`, then return the global. -/
def DynamicBuilder (w : World) (s : DIState) : (Option Builder × Option GoErr) × DIState :=
  match initDynamicBuilder w s with
  | (some e, s1) => ((none, some e), s1)
  | (none, s1) => ((s1.dynamicBuilder, none), s1)

/-- `initGRPCClient`: the guarded body runs at most once; the local
`var err error` is fresh on every call, so a call that skips the body
returns Go's nil error regardless of what the body once produced.
The ghost counter `newClientCalls` counts client-constructor executions. -/
def initGRPCClient (w : World) (cfg : Config) (s : DIState) : Option GoErr × DIState :=
  if s.gRPCClientOnceDone then (none, s)
  else
    let s1 := { s with gRPCClientOnceDone := true }
    let addr := cfg.serverHost ++ ":" ++ cfg.serverPort
    if cfg.requestWeb then
      match DynamicBuilder w s1 with
      | ((_, some e), s2) => (some e, s2)
      | ((b, none), s2) =>
        (none, { s2 with gRPCClient := some (w.newWebClient addr cfg.serverReflection b),
                         newClientCalls := s2.newClientCalls + 1 })
    else
      match w.newClient addr cfg.serverReflection with
      | .ok c =>
        (none, { s1 with gRPCClient := some c, newClientCalls := s1.newClientCalls + 1 })
      | .error e =>
        (some e, { s1 with newClientCalls := s1.newClientCalls + 1 })

/-- `GRPCClient`: run `initGRPCClient`; on error return (nil, err),
otherwise return the global client (possibly still Go-nil) and nil. -/
def GRPCClient (w : World) (cfg : Config) (s : DIState) : (Option Client × Option GoErr) × DIState :=
  match initGRPCClient w cfg s with
  | (some e, s1) => ((none, some e), s1)
  | (none, s1) => ((s1.gRPCClient, none), s1)

/-- The trailing `if svc := cfg.Default.Service; svc != ""` block of
`initEnv`'s guarded body, acting on the package-level `env`. -/
def useServicePart (w : World) (cfg : Config) (s : DIState) : Exec (Option GoErr × DIState) := do
  if cfg.defaultService ≠ "" then
    match ← callUseService w s.env cfg.defaultService with
    | some e =>
      return (some (GoErr.wrap ("failed to set service to env as a default service: " ++ cfg.defaultService) e), s)
    | none => return (none, s)
  else
    return (none, s)

/-- `initEnv`: the guarded body resolves paths and files, parses
descriptors, obtains the gRPC client, and builds the environment either
from server reflection or from the parsed descriptors; the named return
`rerr` is fresh on every call, so a call that skips the body returns Go's
nil error. The ghost counter `envBodyRuns` counts body executions. -/
def initEnv (w : World) (cfg : Config) (s : DIState) : Exec (Option GoErr × DIState) := do
  if s.envOnceDone then return (none, s)
  let s1 := { s with envOnceDone := true, envBodyRuns := s.envBodyRuns + 1 }
  match resolveProtoPaths w cfg with
  | .error e => return (some e, s1)
  | .ok paths =>
    let files := resolveProtoFiles cfg
    match w.parseFile files paths with
    | .error e => return (some e, s1)
    | .ok desc =>
      match GRPCClient w cfg s1 with
      | ((_, some e), s2) => return (some e, s2)
      | ((clientOpt, none), s2) =>
        let headers := cfg.requestHeader.map fun h => ({ key := h.1, val := h.2 } : Header)
        let refl ← callReflectionEnabled w clientOpt
        if refl then
          match ← callListServices w clientOpt with
          | (_, _, some e) =>
            return (some (GoErr.wrap "failed to list services by gRPC reflection" e), s2)
          | (svcs, msgs, none) =>
            let s3 := { s2 with env := some (w.newFromServices svcs msgs headers) }
            useServicePart w cfg s3
        else
          let s3 := { s2 with env := some (w.newEnv desc headers) }
          if cfg.defaultPackage ≠ "" then
            match ← callUsePackage w s3.env cfg.defaultPackage with
            | some e =>
              return (some (GoErr.wrap ("failed to set package to env as a default package: " ++ cfg.defaultPackage) e), s3)
            | none => useServicePart w cfg s3
          else
            useServicePart w cfg s3

/-- `Env`: run `initEnv`; on error return (nil, err), otherwise return the
global environment (possibly still Go-nil) and nil. -/
def Env (w : World) (cfg : Config) (s : DIState) : Exec ((Option Environment × Option GoErr) × DIState) := do
  let (err, s1) ← initEnv w cfg s
  match err with
  | some e => return ((none, some e), s1)
  | none => return ((s1.env, none), s1)

/-- `initPromptInputter`: the guarded body obtains the environment (its
error becomes the named return `err`) and always constructs the prompt
inputter, even with a Go-nil environment. -/
def initPromptInputter (w : World) (cfg : Config) (s : DIState) : Exec (Option GoErr × DIState) := do
  if s.promptInputterOnceDone then return (none, s)
  let s1 := { s with promptInputterOnceDone := true }
  let ((e, err), s2) ← Env w cfg s1
  let s3 := { s2 with promptInputter := some { format := cfg.promptFormat, env := e } }
  return (err, s3)

/-- The `initializer` struct: an ordered constructor list, a result cache
field (note: the source never assigns it), and a one-shot flag. The
constructors act on a state of type `σ` and may panic. -/
structure Initializer (σ : Type) : Type where
  f : List (σ → Exec (Option GoErr × σ))
  resultCache : Option GoErr
  done : Bool

/-- The Go zero value `&initializer{}`. -/
def Initializer.new {σ : Type} : Initializer σ :=
  { f := [], resultCache := none, done := false }

/-- `initializer.register`: append constructors to the ordered list. -/
def Initializer.register {σ : Type} (i : Initializer σ)
    (fs : List (σ → Exec (Option GoErr × σ))) : Initializer σ :=
  { i with f := i.f ++ fs }

/-- `multierror.Append(result, err)` with `result` a possibly-nil error:
nil starts a fresh aggregate, an existing aggregate is extended, any other
error is first boxed into an aggregate. -/
def multierrorAppend : Option GoErr → GoErr → GoErr
  | none, e => .agg [e]
  | some (.agg es), e => .agg (es ++ [e])
  | some e0, e => .agg [e0, e]

/-- The `for` loop of `initializer.init`: run each constructor in order,
appending every failure to `result`. -/
def Initializer.initLoop {σ : Type} :
    List (σ → Exec (Option GoErr × σ)) → Option GoErr → σ → Exec (Option GoErr × σ)
  | [], result, s => .ok (result, s)
  | f :: fs, result, s => do
    let (err, s1) ← f s
    match err with
    | some e => Initializer.initLoop fs (some (multierrorAppend result e)) s1
    | none => Initializer.initLoop fs result s1

/-- `initializer.init`: when `done`, return `resultCache` at once;
otherwise set `done` and run every registered constructor, returning the
aggregated failures (`resultCache` is never written, as in the source). -/
def Initializer.init {σ : Type} (i : Initializer σ) (s : σ) :
    Exec (Option GoErr × Initializer σ × σ) :=
  if i.done then .ok (i.resultCache, i, s)
  else
    let i1 := { i with done := true }
    do
      let (result, s1) ← Initializer.initLoop i1.f none s
      return (result, i1, s1)

/-- The six constructors registered by `initDependencies`, in source
order. The pure ones are lifted into `Exec`. -/
def theConstructors (w : World) (cfg : Config) (inp : Reader) :
    List (DIState → Exec (Option GoErr × DIState)) :=
  [ fun s => .ok (initJSONFileInputter w inp s),
    fun s => initPromptInputter w cfg s,
    fun s => .ok (initGRPCClient w cfg s),
    fun s => initEnv w cfg s,
    fun s => .ok (initJSONCLIPresenter w s),
    fun s => .ok (initDynamicBuilder w s) ]

/-- The remaining package-level state of `di`: the `DIState` globals, the
`initer` pointer with its `sync.Once` flag, and a ghost counter of
executed `gRPCClient.Close` calls. -/
structure FullState : Type where
  di : DIState := {}
  initer : Option (Initializer DIState) := none
  initerOnceDone : Bool := false
  closeCalls : Nat := 0

/-- Process-start value of the whole `di` package state. -/
def initialFullState : FullState := {}

/-- `initDependencies`: once, build the initializer and register the six
constructors; then run `initer.init()`; if it failed, invoke
`gRPCClient.Close(context.Background())` on the package-level client —
unconditionally, hence a nil-interface method call (panic) when no client
was ever stored — and return the aggregate. -/
def initDependencies (w : World) (cfg : Config) (inp : Reader) (fs : FullState) :
    Exec (Option GoErr × FullState) :=
  let initerNow : Option (Initializer DIState) :=
    if fs.initerOnceDone then fs.initer
    else some (Initializer.new.register (theConstructors w cfg inp))
  match initerNow with
  | none => .error .nilPointerDereference
  | some i => do
    let (err, i1, di1) ← i.init fs.di
    let fs1 : FullState :=
      { fs with di := di1, initer := some i1, initerOnceDone := true }
    match err with
    | some e =>
      match di1.gRPCClient with
      | none => .error .nilPointerDereference
      | some c =>
        let _ := w.closeClient () c
        return (some e, { fs1 with closeCalls := fs1.closeCalls + 1 })
    | none => return (none, fs1)

/-- `usecase.InteractorParams` (field names as in the source). -/
structure InteractorParams : Type where
  Env : Option Environment := none
  OutputPort : Option Nat := none
  InputterPort : Option Nat := none
  DynamicBuilder : Option Builder := none
  GRPCClient : Option Client := none

/-- `InteractorParams.Cleanup(ctx)`: close the gRPC client when the field
is non-nil, otherwise return nil. -/
def InteractorParams.Cleanup (p : InteractorParams) (w : World) (ctx : Ctx) : Option GoErr :=
  match p.GRPCClient with
  | some c => w.closeClient ctx c
  | none => none

/-- Spec-side: "deduplicated by exact string equality, first occurrence
wins, order preserved" — keep each element's first occurrence, erasing all
later equal elements. -/
def dedupKeepFirst : List String → List String
  | [] => []
  | x :: xs => x :: dedupKeepFirst (xs.filter fun y => decide (y ≠ x))
termination_by l => l.length
decreasing_by
  simp only [List.length_cons]
  exact Nat.lt_succ_of_le (List.length_filter_le _ _)

/-- Spec-side: the per-entry resolution results that survive — for each
raw entry that the parser expands to a single non-empty token, that token;
entries expanding to zero tokens contribute nothing. -/
def resolvedNonempty (w : World) (ps : List String) : List String :=
  ps.filterMap fun p =>
    match parseOne w p with
    | .ok r => if r = "" then none else some r
    | .error _ => none

/-- Spec-side: an `AggregateError` from a list of recorded failures;
empty means success (Go's nil error). -/
def aggOf (es : List GoErr) : Option GoErr :=
  if es.isEmpty then none else some (.agg es)

/-- Instrumented constructor for the orchestrator: produces the given
outcome and appends its tag to the run log (spec §8's invocation
counters). -/
def taggedCtor (k : Nat) (outcome : Option GoErr) :
    List Nat → Exec (Option GoErr × List Nat) :=
  fun log => .ok (outcome, log ++ [k])

/-- A whole instrumented constructor list, tagged in declared order. -/
def taggedCtors (cs : List (Option GoErr)) :
    List (List Nat → Exec (Option GoErr × List Nat)) :=
  cs.enum.map fun kc => taggedCtor kc.1 kc.2

/-- Split a character list at spaces (helper for the shell-words model). -/
def splitAtSpaces : List Char → List Char → List (List Char)
  | [], cur => [cur.reverse]
  | c :: rest, cur =>
    if c = ' ' then cur.reverse :: splitAtSpaces rest []
    else splitAtSpaces rest (c :: cur)

/-- Substitute one raw token: a leading `$` reads the named variable from
the process environment, empty when unset (helper for the shell-words
model). -/
def substToken (envVars : String → Option String) : List Char → String
  | '$' :: name => (envVars (String.mk name)).getD ""
  | t => String.mk t

/-- Modelled from the spec: shell-word splitting with environment-variable
substitution (the third-party go-shellwords parser with `ParseEnv = true`),
adequate for the spec's example inputs: split on single spaces, substitute
a `$NAME` token from the process environment (empty when unset), and drop
empty tokens. -/
def shellwordsModel (envVars : String → Option String) (p : String) :
    Except GoErr (List String) :=
  let toks := (splitAtSpaces p.toList []).map (substToken envVars)
  .ok (toks.filter fun t => t != "")

/-- A process environment with no variables set. -/
def noEnvVars : String → Option String := fun _ => none

/-- A fully working external world: every collaborator succeeds. -/
def wBase : World where
  parseEnvWord := shellwordsModel noEnvVars
  parseFile := fun _ _ => .ok 0
  newClient := fun _ _ => .ok 7
  newWebClient := fun _ _ _ => 8
  reflectionEnabled := fun _ => false
  listServices := fun _ => ([], [], none)
  newFromServices := fun _ _ _ => 1
  newEnv := fun _ _ => 2
  usePackage := fun _ _ => none
  useService := fun _ _ => none
  closeClient := fun _ _ => none
  newDynamicBuilder := 3
  newJSONPresenter := 4
  newJSONFile := fun _ => 5

/-- The same world, except dialing the gRPC server fails. -/
def wFailClient : World :=
  { wBase with newClient := fun _ _ => .error (.mk "connection refused") }

/-- A configuration whose proto path resolves cleanly. -/
def cfg0 : Config := { protoPath := ["./protos"] }

/-- A configuration whose proto path entry expands to two tokens. -/
def cfgAmb : Config := { protoPath := ["a b"] }

/-- `n` callers of the registry accessor `GRPCClient` in synchronization
order: `sync.Once` serializes the guarded body and blocks every
concurrent caller until it finishes, so any concurrent execution is
observationally this sequence. Returns each caller's observed outcome and
the final state. -/
def grpcCallers (w : World) (cfg : Config) : Nat → DIState → List (Option Client × Option GoErr) × DIState
  | 0, s => ([], s)
  | n + 1, s =>
    let (o, s1) := GRPCClient w cfg s
    let (os, s2) := grpcCallers w cfg n s1
    (o :: os, s2)

/-- The `di` package state after a first `Env` call failed in path
resolution: only the once-flag (and the ghost body counter) changed. -/
def envFailedState : DIState := { envOnceDone := true, envBodyRuns := 1 }

/-- An orchestrator over one failing instrumented constructor. -/
def c2i0 : Initializer (List Nat) :=
  Initializer.new.register (taggedCtors [some (.mk "boom")])

/-- The same orchestrator after its first `init` call: `done` is set but
`resultCache` still holds the never-assigned zero value. -/
def c2i1 : Initializer (List Nat) :=
  { f := taggedCtors [some (.mk "boom")], resultCache := none, done := true }

/-- C1: the claim states that after a registry's first `get()` completed,
every later call returns the identical outcome, the same error on failure.
The code contradicts it: with a failing gRPC dial, the first
`GRPCClient(cfg)` returns (nil, "connection refused") but the second
returns (nil, nil) — the error outcome is not cached — even though the
constructor indeed does not run again (one recorded invocation). The same
happens for `Env(cfg)` after a path-resolution failure: the second call
returns (nil, nil). -/
theorem grpc_and_env_error_outcome_not_cached :
    (GRPCClient wFailClient cfg0 initialDIState).1
      = (none, some (.mk "connection refused"))
    ∧ (GRPCClient wFailClient cfg0 (GRPCClient wFailClient cfg0 initialDIState).2).1
      = (none, none)
    ∧ (GRPCClient wFailClient cfg0 (GRPCClient wFailClient cfg0 initialDIState).2).2.newClientCalls = 1
    ∧ Env wBase cfgAmb initialDIState
      = .ok ((none, some (.mk "failed to parse proto path")), envFailedState)
    ∧ Env wBase cfgAmb envFailedState = .ok ((none, none), envFailedState) :=
  ⟨rfl, rfl, rfl, rfl, rfl⟩

/-- C2: the claim states that a second `init()` call returns the same
aggregate the first call returned. The code contradicts it: with one
failing constructor the first call returns the one-error aggregate, but
the second call returns the never-assigned `resultCache`, i.e. Go's nil —
while (as the claim also says) invoking no constructor: the run log and
the initializer are unchanged. -/
theorem initializer_second_call_returns_nil_not_cached_aggregate :
    c2i0.init ([] : List Nat) = .ok (some (.agg [.mk "boom"]), c2i1, [0])
    ∧ c2i1.init [0] = .ok (none, c2i1, [0]) :=
  ⟨rfl, rfl⟩

/-- C3: the claim states that on a non-empty aggregate the network client
is closed iff it was built, and that when the client constructor itself
failed the cleanup performs no `Close` and returns the aggregate without
fault. The code contradicts it: `initDependencies` calls
`gRPCClient.Close` unconditionally, so when the dial failed (client never
stored) the call panics on the nil interface instead of returning the
aggregate; when the client was built (here: a path-resolution failure
with a healthy server), `Close` runs exactly once and the one-error
aggregate is returned. -/
theorem cleanup_close_unconditional_panics_when_client_not_built :
    initDependencies wFailClient cfg0 9 initialFullState = .error .nilPointerDereference
    ∧ (∃ fs1, initDependencies wBase cfgAmb 9 initialFullState
        = .ok (some (.agg [.mk "failed to parse proto path"]), fs1)
        ∧ fs1.closeCalls = 1 ∧ fs1.di.gRPCClient = some 7) :=
  ⟨rfl, _, rfl, rfl, rfl⟩

/-- C9: the claim states that 50 callers of one registry's `get()`
trigger exactly one constructor execution (which holds: the ghost counter
ends at 1) and that all 50 observe the identical outcome. The code
contradicts the latter: with a failing constructor, the first caller in
synchronization order observes the error and the remaining 49 observe
(nil, nil). -/
theorem concurrent_get_single_execution_divergent_outcomes :
    (grpcCallers wFailClient cfg0 50 initialDIState).2.newClientCalls = 1
    ∧ (grpcCallers wFailClient cfg0 50 initialDIState).1
      = (none, some (.mk "connection refused")) :: List.replicate 49 (none, none) :=
  ⟨rfl, rfl⟩

/-- C10: `InteractorParams.Cleanup` is nil-safe — for every context and
every external world, a nil `GRPCClient` field yields a nil error without
any close call (the result does not depend on the close behavior at all),
and a non-nil field yields exactly `GRPCClient.Close(ctx)`. -/
theorem cleanup_nil_safe :
    ∀ (p : InteractorParams) (w : World) (ctx : Ctx),
      (p.GRPCClient = none → p.Cleanup w ctx = none)
      ∧ (∀ c, p.GRPCClient = some c → p.Cleanup w ctx = w.closeClient ctx c) := by
  intro p w ctx
  constructor
  · intro h
    simp [InteractorParams.Cleanup, h]
  · intro c h
    simp [InteractorParams.Cleanup, h]

/-- Witness for C10 at concrete inputs: a params value with no client and
one with client 7. -/
theorem cleanup_nil_safe_witness :
    InteractorParams.Cleanup {} wBase () = none
    ∧ InteractorParams.Cleanup { GRPCClient := some 7 } wBase () = wBase.closeClient () 7 :=
  ⟨(cleanup_nil_safe {} wBase ()).1 rfl,
   (cleanup_nil_safe { GRPCClient := some 7 } wBase ()).2 7 rfl⟩

/-- C5 counterexample: with every collaborator healthy except the gRPC
dial, exactly one constructor fails, and the claim's conclusion is false:
the aggregate computed by the orchestrator does contain exactly one
error, but the environment — a component other than the failed one — is
never built, and `initDependencies` does not even return the aggregate:
it panics during cleanup. -/
theorem single_failure_counterexample_dependents_not_built :
    (∃ i1 di1,
      (Initializer.new.register (theConstructors wFailClient cfg0 9)).init initialDIState
        = .ok (some (.agg [.mk "connection refused"]), i1, di1)
      ∧ di1.env = none)
    ∧ initDependencies wFailClient cfg0 9 initialFullState = .error .nilPointerDereference :=
  ⟨⟨_, _, rfl, rfl⟩, rfl⟩

/-- C5 amended: under exactly one failing constructor the aggregate
contains exactly one error, attributed to the first registered
constructor that transitively hit the failure; components that do not
depend on the failed constructor are fully built, but dependents are not
— when the gRPC dial fails, the environment stays unbuilt, the prompt
inputter is built around a nil environment, and `initDependencies` panics
during cleanup instead of returning the aggregate; when the failure does
not prevent the client from being built (a path-resolution failure), the
one-error aggregate is returned and the dependent components are still
degraded the same way. -/
theorem single_failure_one_error_aggregate_but_dependents_unusable :
    (∃ i1 di1,
      (Initializer.new.register (theConstructors wFailClient cfg0 9)).init initialDIState
        = .ok (some (.agg [.mk "connection refused"]), i1, di1)
      ∧ di1.jsonFileInputter = some 5
      ∧ di1.jsonCLIPresenter = some 4
      ∧ di1.dynamicBuilder = some 3
      ∧ di1.promptInputter = some { format := "", env := none }
      ∧ di1.env = none
      ∧ di1.gRPCClient = none)
    ∧ initDependencies wFailClient cfg0 9 initialFullState = .error .nilPointerDereference
    ∧ (∃ fs1, initDependencies wBase cfgAmb 9 initialFullState
        = .ok (some (.agg [.mk "failed to parse proto path"]), fs1)
        ∧ fs1.di.gRPCClient = some 7
        ∧ fs1.di.promptInputter = some { format := "", env := none }
        ∧ fs1.di.env = none) :=
  ⟨⟨_, _, rfl, rfl, rfl, rfl, rfl, rfl, rfl⟩, rfl, ⟨_, rfl, rfl, rfl, rfl⟩⟩

/-- The accumulator form of the `resolveProtoFiles` loop. -/
theorem resolveProtoFilesLoop_filter :
    ∀ (l acc : List String),
      l.foldl (fun files f => if f ≠ "" then files ++ [f] else files) acc
        = acc ++ l.filter (fun f => decide (f ≠ "")) := by
  intro l
  induction l with
  | nil => intro acc; simp
  | cons f fs ih =>
    intro acc
    by_cases h : f = ""
    · subst h
      simpa using ih acc
    · simp only [List.foldl_cons, List.filter_cons, h, if_neg]
      rw [if_pos h, ih]
      simp [h]

/-- C8: `resolveProtoFiles` applies no tokenization or substitution — its
result is exactly the input file-name sequence with the empty entries
removed, every non-empty entry verbatim and in the original order. -/
theorem resolve_proto_files_verbatim_filter :
    ∀ cfg : Config,
      resolveProtoFiles cfg = cfg.protoFile.filter (fun f => decide (f ≠ "")) := by
  intro cfg
  unfold resolveProtoFiles
  rw [resolveProtoFilesLoop_filter]
  simp

theorem multierrorAppend_none (e : GoErr) : multierrorAppend none e = .agg [e] := rfl

theorem multierrorAppend_agg (l : List GoErr) (e : GoErr) :
    multierrorAppend (some (.agg l)) e = .agg (l ++ [e]) := rfl

theorem multierrorFold_agg :
    ∀ (es l : List GoErr),
      es.foldl (fun r e => some (multierrorAppend r e)) (some (.agg l)) = some (.agg (l ++ es)) := by
  intro es
  induction es with
  | nil => intro l; simp
  | cons e es ih =>
    intro l
    simp only [List.foldl_cons, multierrorAppend_agg]
    rw [ih]
    simp

theorem multierrorFold_none :
    ∀ es : List GoErr,
      es.foldl (fun r e => some (multierrorAppend r e)) none = aggOf es := by
  intro es
  cases es with
  | nil => simp [aggOf]
  | cons e es =>
    simp only [List.foldl_cons, multierrorAppend_none]
    rw [multierrorFold_agg]
    simp [aggOf]

theorem initLoop_tagged :
    ∀ (cs : List (Option GoErr)) (k : Nat) (result : Option GoErr) (log : List Nat),
      Initializer.initLoop ((List.enumFrom k cs).map fun kc => taggedCtor kc.1 kc.2) result log
        = .ok ((cs.filterMap id).foldl (fun r e => some (multierrorAppend r e)) result,
               log ++ List.range' k cs.length) := by
  intro cs
  induction cs with
  | nil => intro k result log; simp [Initializer.initLoop, List.range']
  | cons c cs ih =>
    intro k result log
    cases c with
    | none =>
      have hstep :
          Initializer.initLoop ((List.enumFrom k (none :: cs)).map fun kc => taggedCtor kc.1 kc.2) result log
            = Initializer.initLoop ((List.enumFrom (k + 1) cs).map fun kc => taggedCtor kc.1 kc.2)
                result (log ++ [k]) := rfl
      rw [hstep, ih]
      simp [List.range'_succ, List.append_assoc]
    | some e =>
      have hstep :
          Initializer.initLoop ((List.enumFrom k (some e :: cs)).map fun kc => taggedCtor kc.1 kc.2) result log
            = Initializer.initLoop ((List.enumFrom (k + 1) cs).map fun kc => taggedCtor kc.1 kc.2)
                (some (multierrorAppend result e)) (log ++ [k]) := rfl
      rw [hstep, ih]
      simp [List.range'_succ, List.filterMap_cons, List.append_assoc]

/-- C4: on the orchestrator's first `init()` call, every registered
constructor runs, in declared order, even when earlier ones fail (the run
log is exactly `[0, ..., n-1]`); each failure is recorded and the call
returns the `multierror` combination of all recorded failures in order —
Go's nil (empty aggregate) when none failed. -/
theorem init_runs_every_constructor_in_order_and_aggregates :
    ∀ cs : List (Option GoErr),
      (Initializer.new.register (taggedCtors cs)).init []
        = .ok (aggOf (cs.filterMap id),
               { f := taggedCtors cs, resultCache := none, done := true },
               List.range cs.length) := by
  intro cs
  have hreg : Initializer.new.register (taggedCtors cs)
      = { f := taggedCtors cs, resultCache := none, done := false } := by
    simp [Initializer.new, Initializer.register]
  rw [hreg]
  have hloop := initLoop_tagged cs 0 none []
  have henum : taggedCtors cs = (List.enumFrom 0 cs).map fun kc => taggedCtor kc.1 kc.2 := rfl
  simp only [Initializer.init, if_neg (by decide : ¬(false = true))]
  rw [henum, hloop]
  simp only [multierrorFold_none, List.nil_append, List.range_eq_range']
  rfl

theorem dedupKeepFirst_cons (x : String) (l : List String) :
    dedupKeepFirst (x :: l) = x :: dedupKeepFirst (l.filter fun y => decide (y ≠ x)) := by
  rw [dedupKeepFirst]

theorem filter_notMem_cons (l : List String) (a : String) (enc : List String) :
    (l.filter fun x => decide (x ∉ a :: enc))
      = (l.filter fun x => decide (x ∉ enc)).filter fun y => decide (y ≠ a) := by
  rw [List.filter_filter]
  apply List.filter_congr
  intro x _
  by_cases h1 : x = a <;> by_cases h2 : x ∈ enc <;> simp [h1, h2]

theorem resolvedNonempty_cons_err (w : World) (p : String) (ps : List String) (e : GoErr)
    (hp : parseOne w p = .error e) :
    resolvedNonempty w (p :: ps) = resolvedNonempty w ps := by
  simp [resolvedNonempty, List.filterMap_cons, hp]

theorem resolvedNonempty_cons_empty (w : World) (p : String) (ps : List String)
    (hp : parseOne w p = .ok "") :
    resolvedNonempty w (p :: ps) = resolvedNonempty w ps := by
  simp [resolvedNonempty, List.filterMap_cons, hp]

theorem resolvedNonempty_cons_ok (w : World) (p : String) (ps : List String) (r : String)
    (hp : parseOne w p = .ok r) (hr : r ≠ "") :
    resolvedNonempty w (p :: ps) = r :: resolvedNonempty w ps := by
  simp [resolvedNonempty, List.filterMap_cons, hp, hr]

theorem dedupKeepFirst_nil : dedupKeepFirst [] = [] := by
  rw [dedupKeepFirst]

theorem rppLoop_cons_err (w : World) {p : String} {e : GoErr} (ps enc acc : List String)
    (hp : parseOne w p = .error e) :
    rppLoop w (p :: ps) enc acc = .error e := by
  simp [rppLoop, hp]

theorem rppLoop_cons_skip (w : World) {p path : String} (ps enc acc : List String)
    (hp : parseOne w p = .ok path) (hc : path ∈ enc ∨ path = "") :
    rppLoop w (p :: ps) enc acc = rppLoop w ps enc acc := by
  simp only [rppLoop, hp]
  rw [if_pos hc]

theorem rppLoop_cons_take (w : World) {p path : String} (ps enc acc : List String)
    (hp : parseOne w p = .ok path) (hc : ¬(path ∈ enc ∨ path = "")) :
    rppLoop w (p :: ps) enc acc = rppLoop w ps (path :: enc) (acc ++ [path]) := by
  simp only [rppLoop, hp]
  rw [if_neg hc]

theorem rppLoop_ok_dedup (w : World) :
    ∀ (ps enc acc res : List String),
      rppLoop w ps enc acc = .ok res →
      res = acc ++ dedupKeepFirst ((resolvedNonempty w ps).filter fun x => decide (x ∉ enc)) := by
  intro ps
  induction ps with
  | nil =>
    intro enc acc res h
    simp [rppLoop] at h
    simp [resolvedNonempty, dedupKeepFirst_nil, ← h]
  | cons p ps ih =>
    intro enc acc res h
    cases hp : parseOne w p with
    | error e =>
      rw [rppLoop_cons_err w ps enc acc hp] at h
      exact absurd h (by simp)
    | ok path =>
      by_cases hskip : path ∈ enc ∨ path = ""
      · rw [rppLoop_cons_skip w ps enc acc hp hskip] at h
        by_cases hem : path = ""
        · subst hem
          rw [resolvedNonempty_cons_empty w p ps hp]
          exact ih enc acc res h
        · have hmem : path ∈ enc := hskip.resolve_right hem
          rw [resolvedNonempty_cons_ok w p ps path hp hem]
          rw [List.filter_cons_of_neg (by simp [hmem])]
          exact ih enc acc res h
      · rw [rppLoop_cons_take w ps enc acc hp hskip] at h
        push_neg at hskip
        obtain ⟨hmem, hne⟩ := hskip
        rw [resolvedNonempty_cons_ok w p ps path hp hne]
        rw [List.filter_cons_of_pos (by simp [hmem])]
        rw [dedupKeepFirst_cons]
        rw [← filter_notMem_cons]
        have hres := ih (path :: enc) (acc ++ [path]) res h
        rw [hres]
        simp

/-- C6: `resolveProtoPaths` deduplicates by exact string equality, first
occurrence winning, input order preserved: every successful result equals
the first-occurrence dedup of the surviving per-entry resolutions; and
concretely, with `UNSET_VAR` unset, the first three entries of
`["./protos", "$UNSET_VAR", "./protos", "a b"]` resolve to
`["./protos"]` while the `"a b"` entry makes the whole call fail with
the ambiguous-path error. -/
theorem resolve_proto_paths_dedup_first_wins :
    (∀ (w : World) (cfg : Config) (res : List String),
        resolveProtoPaths w cfg = .ok res →
        res = dedupKeepFirst (resolvedNonempty w cfg.protoPath))
    ∧ resolveProtoPaths wBase { protoPath := ["./protos", "$UNSET_VAR", "./protos"] }
        = .ok ["./protos"]
    ∧ resolveProtoPaths wBase { protoPath := ["./protos", "$UNSET_VAR", "./protos", "a b"] }
        = .error (.mk "failed to parse proto path") := by
  refine ⟨?_, rfl, rfl⟩
  intro w cfg res h
  have hd := rppLoop_ok_dedup w cfg.protoPath [] [] res h
  simpa using hd

/-- Witness for C6's general conjunct at the spec's concrete input. -/
theorem resolve_proto_paths_dedup_first_wins_witness :
    resolveProtoPaths wBase { protoPath := ["./protos", "$UNSET_VAR", "./protos"] }
        = .ok ["./protos"]
    ∧ ["./protos"] = dedupKeepFirst (resolvedNonempty wBase ["./protos", "$UNSET_VAR", "./protos"]) :=
  ⟨rfl, resolve_proto_paths_dedup_first_wins.1 wBase
    { protoPath := ["./protos", "$UNSET_VAR", "./protos"] } ["./protos"] rfl⟩

theorem parseOne_of_ok (w : World) {p : String} {toks : List String}
    (hok : w.parseEnvWord p = .ok toks) :
    parseOne w p
      = (if toks.length > 1 then .error (GoErr.mk "failed to parse proto path")
         else .ok (toks.headD "")) := by
  unfold parseOne
  rw [hok]
  cases toks <;> rfl

theorem parseOne_ok_of_small (w : World) {p : String} {toks : List String}
    (hok : w.parseEnvWord p = .ok toks) (hlen : ¬ 1 < toks.length) :
    ∃ path, parseOne w p = .ok path := by
  rw [parseOne_of_ok w hok, if_neg hlen]
  exact ⟨toks.headD "", rfl⟩

theorem rppLoop_error_of_many (w : World) :
    ∀ (ps enc acc : List String),
      (∀ p ∈ ps, ∃ toks, w.parseEnvWord p = .ok toks) →
      (∃ p ∈ ps, ∃ toks, w.parseEnvWord p = .ok toks ∧ 1 < toks.length) →
      rppLoop w ps enc acc = .error (.mk "failed to parse proto path") := by
  intro ps
  induction ps with
  | nil =>
    intro enc acc _ hmany
    simp at hmany
  | cons p ps ih =>
    intro enc acc hall hmany
    by_cases hp : ∃ toks, w.parseEnvWord p = .ok toks ∧ 1 < toks.length
    · obtain ⟨toks, hok, hlen⟩ := hp
      have hpe : parseOne w p = .error (.mk "failed to parse proto path") := by
        rw [parseOne_of_ok w hok, if_pos hlen]
      exact rppLoop_cons_err w ps enc acc hpe
    · obtain ⟨toks, hok⟩ := hall p (List.mem_cons_self p ps)
      have hlen : ¬ 1 < toks.length := fun hl => hp ⟨toks, hok, hl⟩
      obtain ⟨path, hpo⟩ := parseOne_ok_of_small w hok hlen
      have hall' : ∀ q ∈ ps, ∃ toks, w.parseEnvWord q = .ok toks :=
        fun q hq => hall q (List.mem_cons_of_mem p hq)
      have hmany' : ∃ q ∈ ps, ∃ toks, w.parseEnvWord q = .ok toks ∧ 1 < toks.length := by
        rcases hmany with ⟨q, hq, hqm⟩
        rcases List.mem_cons.mp hq with rfl | hq'
        · exact absurd hqm hp
        · exact ⟨q, hq', hqm⟩
      by_cases hskip : path ∈ enc ∨ path = ""
      · rw [rppLoop_cons_skip w ps enc acc hpo hskip]
        exact ih enc acc hall' hmany'
      · rw [rppLoop_cons_take w ps enc acc hpo hskip]
        exact ih _ _ hall' hmany'

theorem rppLoop_ok_of_nomany (w : World) :
    ∀ (ps enc acc : List String),
      (∀ p ∈ ps, ∃ toks, w.parseEnvWord p = .ok toks ∧ ¬ 1 < toks.length) →
      ∃ res, rppLoop w ps enc acc = .ok res := by
  intro ps
  induction ps with
  | nil =>
    intro enc acc _
    exact ⟨acc, rfl⟩
  | cons p ps ih =>
    intro enc acc hall
    obtain ⟨toks, hok, hlen⟩ := hall p (List.mem_cons_self p ps)
    obtain ⟨path, hpo⟩ := parseOne_ok_of_small w hok hlen
    have hall' : ∀ q ∈ ps, ∃ toks, w.parseEnvWord q = .ok toks ∧ ¬ 1 < toks.length :=
      fun q hq => hall q (List.mem_cons_of_mem p hq)
    by_cases hskip : path ∈ enc ∨ path = ""
    · rw [rppLoop_cons_skip w ps enc acc hpo hskip]
      exact ih enc acc hall'
    · rw [rppLoop_cons_take w ps enc acc hpo hskip]
      exact ih _ _ hall'

theorem rppLoop_dropZero (w : World) {p : String} (hp : w.parseEnvWord p = .ok []) :
    ∀ (pre post enc acc : List String),
      rppLoop w (pre ++ p :: post) enc acc = rppLoop w (pre ++ post) enc acc := by
  have hpo : parseOne w p = .ok "" := by
    rw [parseOne_of_ok w hp]
    rfl
  intro pre
  induction pre with
  | nil =>
    intro post enc acc
    rw [List.nil_append, List.nil_append,
      rppLoop_cons_skip w post enc acc hpo (Or.inr rfl)]
  | cons q pre ih =>
    intro post enc acc
    rw [List.cons_append, List.cons_append]
    cases hq : parseOne w q with
    | error e =>
      rw [rppLoop_cons_err w _ enc acc hq, rppLoop_cons_err w _ enc acc hq]
    | ok path =>
      by_cases hskip : path ∈ enc ∨ path = ""
      · rw [rppLoop_cons_skip w _ enc acc hq hskip,
          rppLoop_cons_skip w _ enc acc hq hskip, ih]
      · rw [rppLoop_cons_take w _ enc acc hq hskip,
          rppLoop_cons_take w _ enc acc hq hskip, ih]

/-- C7: for raw path entries whose shell-word expansion succeeds, some
entry expanding to more than one token is equivalent to
`resolveProtoPaths` failing with the ambiguous-path error; and an entry
expanding to zero tokens is silently dropped — deleting it from the input
leaves the result (and the absence of an error) unchanged. -/
theorem proto_path_token_arity_handling :
    (∀ (w : World) (cfg : Config),
      (∀ p ∈ cfg.protoPath, ∃ toks, w.parseEnvWord p = .ok toks) →
      ((∃ p ∈ cfg.protoPath, ∃ toks, w.parseEnvWord p = .ok toks ∧ 1 < toks.length) ↔
        resolveProtoPaths w cfg = .error (.mk "failed to parse proto path")))
    ∧ (∀ (w : World) (cfg : Config) (pre post : List String) (p : String),
        w.parseEnvWord p = .ok [] →
        resolveProtoPaths w { cfg with protoPath := pre ++ p :: post }
          = resolveProtoPaths w { cfg with protoPath := pre ++ post }) := by
  constructor
  · intro w cfg hall
    constructor
    · intro hmany
      exact rppLoop_error_of_many w cfg.protoPath [] [] hall hmany
    · intro herr
      by_contra hno
      push_neg at hno
      have hsmall : ∀ p ∈ cfg.protoPath, ∃ toks, w.parseEnvWord p = .ok toks ∧ ¬ 1 < toks.length := by
        intro p hpm
        obtain ⟨toks, hok⟩ := hall p hpm
        exact ⟨toks, hok, not_lt.mpr (hno p hpm toks hok)⟩
      obtain ⟨res, hres⟩ := rppLoop_ok_of_nomany w cfg.protoPath [] [] hsmall
      unfold resolveProtoPaths at herr
      rw [hres] at herr
      exact absurd herr (by simp)
  · intro w cfg pre post p hp
    exact rppLoop_dropZero w hp pre post [] []

/-- Witness for C7 at concrete inputs: `"a b"` trips the ambiguous-path
error; dropping the zero-token `"$UNSET_VAR"` entry changes nothing. -/
theorem proto_path_token_arity_handling_witness :
    resolveProtoPaths wBase { protoPath := ["a b"] } = .error (.mk "failed to parse proto path")
    ∧ resolveProtoPaths wBase { protoPath := ["./protos", "$UNSET_VAR"] }
      = resolveProtoPaths wBase { protoPath := ["./protos"] } := by
  constructor
  · exact (proto_path_token_arity_handling.1 wBase { protoPath := ["a b"] }
      (by
        intro p hpm
        simp at hpm
        subst hpm
        exact ⟨["a", "b"], rfl⟩)).mp
      ⟨"a b", by simp, ["a", "b"], rfl, by decide⟩
  · exact proto_path_token_arity_handling.2 wBase {} ["./protos"] [] "$UNSET_VAR" rfl
